import Mathlib

/-!
Shallow embedding of the RAG backend of this repository: the Flask service
in app.py (endpoints POST /preguntar and POST /generar-script, JWT
authentication, Neo4j vector retrieval with deduplication, Gemini answer and
script composition, Supabase conversation logging) and the background
strategist loop in gemini_maestro.py.

External collaborators (the Gemini generate/embed API, the Neo4j vector
query, the Supabase client, jwt.decode, json.loads) are modelled as oracle
parameters.  A Python call that may raise is modelled as an Except value
(error carries str(e)); get_text_embedding's None sentinel is an Option.
Floating-point similarity scores are modelled as rationals.  Each handler
returns its HTTP response (status code and JSON body) together with the list
of observable side effects it performed, in order.
-/

/-- Whitespace set stripped by the Python str.strip method. -/
def esEspacioPython (c : Char) : Bool :=
  c = ' ' || c = '\t' || c = '\n' || c = '\r' || c = '\x0b' || c = '\x0c'

/-- Embedding of the Python expression s.strip(). -/
def recortar (s : String) : String :=
  String.mk (((s.data.dropWhile esEspacioPython).reverse.dropWhile esEspacioPython).reverse)

/-- Embedding of the Python str.split(sep) on a character list: explicit
separator semantics, so empty fields are kept ("a  b" gives three parts). -/
def pySplitChar (sep : Char) : List Char → List (List Char)
  | [] => [[]]
  | c :: resto =>
    if c = sep then [] :: pySplitChar sep resto
    else
      match pySplitChar sep resto with
      | [] => [[c]]
      | palabra :: mas => (c :: palabra) :: mas

/-- Embedding of the Python expression s.split(sep) for a one-character
separator. -/
def pySplit (sep : Char) (s : String) : List String :=
  (pySplitChar sep s.data).map String.mk

/-- Python startswith, computed on code points. -/
def empiezaCon (s pre : String) : Bool := pre.data.isPrefixOf s.data

/-- Python endswith, computed on code points. -/
def terminaCon (s suf : String) : Bool := suf.data.isSuffixOf s.data

/-- Character class of the control-character regex used in app.py to clean
LLM output before json.loads: x00-x08, x0B, x0C, x0E-x1F and x7F (it keeps
tab, newline and carriage return). -/
def esControlJson (c : Char) : Bool :=
  decide (c.toNat ≤ 8) || c.toNat == 11 || c.toNat == 12 ||
    (decide (14 ≤ c.toNat) && decide (c.toNat ≤ 31)) || c.toNat == 127

/-- Embedding of re.sub removing esControlJson characters (app.py lines 149,
239, 371). -/
def limpiarJsonCrudo (s : String) : String :=
  String.mk (s.data.filter (fun c => !esControlJson c))

/-- Character class of the wider regex x00-x1F, x7F used on exception
messages in generar_script_blender (app.py line 379). -/
def esControlTotal (c : Char) : Bool :=
  decide (c.toNat ≤ 31) || c.toNat == 127

/-- Embedding of re.sub removing esControlTotal characters. -/
def limpiarMensajeError (s : String) : String :=
  String.mk (s.data.filter (fun c => !esControlTotal c))

/-- Embedding of limpiar_json from gemini_maestro.py: strip, remove a leading
Markdown fence (7 characters for the json-tagged fence, else 3), remove a
trailing fence, strip again. -/
def limpiar_json (texto : String) : String :=
  let t := recortar texto
  let t1 :=
    if empiezaCon t "```json" then String.mk (t.data.drop 7)
    else if empiezaCon t "```" then String.mk (t.data.drop 3)
    else t
  let t2 := if terminaCon t1 "```" then String.mk (t1.data.take (t1.data.length - 3)) else t1
  recortar t2

/-- JSON values as returned by json.loads and produced by jsonify. -/
inductive JVal where
  | null : JVal
  | str : String → JVal
  | num : Int → JVal
  | arr : List JVal → JVal
  | obj : List (String × JVal) → JVal

/-- First-match lookup in a JSON object field list (Python dicts have unique
keys, so first-match agrees with dict access). -/
def jsonLookup : List (String × JVal) → String → Option JVal
  | [], _ => none
  | (k, v) :: resto, clave => if k = clave then some v else jsonLookup resto clave

/-- Field access on a JSON response body; none when the field is absent or
the body is not an object. -/
def respField (j : JVal) (clave : String) : Option JVal :=
  match j with
  | .obj campos => jsonLookup campos clave
  | _ => none

/-- Embedding of the Python expression d.get(key, default): some value on a
dict, none when the receiver is not a dict (Python raises AttributeError
there, which the caller's except block turns into the fatal path). -/
def jsonGet (j : JVal) (clave : String) (porDefecto : JVal) : Option JVal :=
  match j with
  | .obj campos => some ((jsonLookup campos clave).getD porDefecto)
  | _ => none

/-- Outcome of the external jwt.decode call, covering the exception classes
that get_auth_user_id distinguishes. -/
inductive JwtOutcome where
  | ok : Option String → JwtOutcome
  | expired : JwtOutcome
  | invalidSignature : JwtOutcome
  | otherError : JwtOutcome

/-- Embedding of get_auth_user_id (app.py lines 48-77): returns the pair
(user id from the sub claim, error message).  The token is the second field
of the header split on a space; a header without a space raises IndexError,
reported as the invalid-format error. -/
def get_auth_user_id (authHeader : Option String) (jwtDecode : String → JwtOutcome) :
    Option String × Option String :=
  match authHeader with
  | none => (none, some "Authorization token is missing")
  | some h =>
    match (pySplit ' ' h).get? 1 with
    | none => (none, some "Invalid Authorization header format")
    | some token =>
      match jwtDecode token with
      | .ok sub => (sub, none)
      | .expired => (none, some "Token has expired")
      | .invalidSignature => (none, some "Invalid token signature")
      | .otherError => (none, some "Token validation failed")

/-- Row inserted into the historial_conversaciones table.  The respuesta
column holds the serialized answer; it is kept as a JSON value here. -/
structure LogRow where
  usuario_id : Option String
  sesion_id : String
  pregunta : String
  respuesta : JVal
  modelo_ia_usado : String

/-- Logging environment: whether the Supabase client was initialized at
startup, and the outcome of the external insert call (error = the insert
raised). -/
structure LogConfig where
  configured : Bool
  insertar : LogRow → Except String Unit

/-- How a call to log_conversation_to_supabase ended.  All three outcomes are
normal returns of the Python function. -/
inductive LogOutcome where
  | noClient : LogOutcome
  | logged : LogOutcome
  | insertFailed : String → LogOutcome
deriving DecidableEq

/-- Embedding of log_conversation_to_supabase (app.py lines 80-100): early
return when the client is not configured; otherwise the insert runs inside
try/except and a raised exception is only printed. -/
def log_conversation_to_supabase (cfg : LogConfig) (fila : LogRow) : LogOutcome :=
  if cfg.configured then
    match cfg.insertar fila with
    | .ok _ => .logged
    | .error e => .insertFailed e
  else .noClient

/-- The generative model identifier configured at the top of app.py. -/
def generative_model_name : String := "models/gemini-2.5-flash"

/-- The search plan: the dict shape the Planner prompt requests, with the
get-semantics of buscar_en_grafo (capitulo_enfocado nullable, missing
consultas_busqueda read as the empty list). -/
structure Plan where
  capitulo_enfocado : Option String
  consultas_busqueda : List String
deriving DecidableEq

/-- Embedding of get_plan_de_busqueda (app.py lines 125-155).  The oracle
respuestaLlm is the generate_content call (error = it raised, or reading
response.text raised); parseJson is json.loads on the control-cleaned text.
Any failure yields the fallback plan with a null chapter and the original
question as the only subquery. -/
def get_plan_de_busqueda (parseJson : String → Option Plan)
    (respuestaLlm : Except String String) (pregunta_usuario : String) : Plan :=
  match respuestaLlm with
  | .error _ => { capitulo_enfocado := none, consultas_busqueda := [pregunta_usuario] }
  | .ok texto =>
    match parseJson (limpiarJsonCrudo texto) with
    | some plan => plan
    | none => { capitulo_enfocado := none, consultas_busqueda := [pregunta_usuario] }

/-- Embedding of get_text_embedding (app.py lines 107-118): the result of the
external embed call, with any exception turned into the None sentinel. -/
def get_text_embedding (resultadoGenai : Except String (List ℚ)) : Option (List ℚ) :=
  match resultadoGenai with
  | .ok v => some v
  | .error _ => none

/-- One record returned by the Cypher retrieval query of buscar_en_grafo:
tipo, contenido, pagina, capitulo, parte and the (possibly boosted) score. -/
structure ContextItem where
  tipo : String
  contenido : String
  pagina : Nat
  capitulo : String
  parte : String
  score : ℚ
deriving DecidableEq

/-- Embedding of the first loop of buscar_en_grafo (app.py lines 165-168):
embed each subquery and keep only truthy results, so a None (failed) or
empty embedding is filtered out and never reaches the vector search. -/
def vectoresDeBusqueda (genaiEmbed : String → Except String (List ℚ)) :
    List String → List (List ℚ)
  | [] => []
  | consulta :: resto =>
    match get_text_embedding (genaiEmbed consulta) with
    | some vec =>
      if vec.isEmpty then vectoresDeBusqueda genaiEmbed resto
      else vec :: vectoresDeBusqueda genaiEmbed resto
    | none => vectoresDeBusqueda genaiEmbed resto

/-- Embedding of the deduplication loop of buscar_en_grafo (app.py lines
189-195): walk the result list, keeping an item only when its contenido has
not been seen yet. -/
def dedupVistos : List ContextItem → List String → List ContextItem
  | [], _ => []
  | item :: resto, vistos =>
    if item.contenido ∈ vistos then dedupVistos resto vistos
    else item :: dedupVistos resto (item.contenido :: vistos)

/-- contexto_limpio as computed in buscar_en_grafo: dedupVistos started with
an empty seen-set. -/
def contextoLimpio (encontrado : List ContextItem) : List ContextItem :=
  dedupVistos encontrado []

/-- Embedding of buscar_en_grafo (app.py lines 158-197).  consultaVectorial
is the external Cypher query (UNWIND + vector index + boost + ORDER BY),
taking the focused chapter and the non-empty vector list; an error means the
Neo4j session raised, which propagates to the caller.  With no usable
vectors the function returns the empty list before touching the driver. -/
def buscar_en_grafo (genaiEmbed : String → Except String (List ℚ))
    (consultaVectorial : Option String → List (List ℚ) → Except String (List ContextItem))
    (plan : Plan) : Except String (List ContextItem) :=
  let vectores := vectoresDeBusqueda genaiEmbed plan.consultas_busqueda
  if vectores.isEmpty then .ok []
  else
    match consultaVectorial plan.capitulo_enfocado vectores with
    | .ok encontrado => .ok (contextoLimpio encontrado)
    | .error e => .error e

/-- The fixed not-found sentence of app.py line 286. -/
def mensajeNoEncontrado : String :=
  "Lo siento, no pude encontrar información sobre eso en mi base de conocimientos del manual."

/-- The fixed not-found answer object built when retrieval returns nothing
(app.py lines 284-288). -/
def respuestaNoEncontradaJson : JVal :=
  .obj [("respuesta_principal", .str mensajeNoEncontrado),
        ("puntos_clave", .arr []),
        ("fuente", .str "")]

/-- The degraded answer returned by generar_respuesta_final when the
generation call or the JSON parse fails (app.py line 244). -/
def respuestaErrorRedactorJson : JVal :=
  .obj [("respuesta_principal", .str "Ocurrió un error al generar la respuesta JSON."),
        ("puntos_clave", .arr []),
        ("fuente", .str "")]

/-- Embedding of generar_respuesta_final (app.py lines 201-244): the parsed
JSON of the generation output, or the degraded answer on any exception.  The
prompt construction only feeds the external call and is absorbed into the
respuestaLlm oracle. -/
def generar_respuesta_final (respuestaLlm : Except String String)
    (parseJson : String → Option JVal) : JVal :=
  match respuestaLlm with
  | .error _ => respuestaErrorRedactorJson
  | .ok texto =>
    match parseJson (limpiarJsonCrudo texto) with
    | some j => j
    | none => respuestaErrorRedactorJson

/-- Observable side effects of a request handler, in program order. -/
inductive Effect where
  | genLlamadaPlanificador : Effect
  | genLlamadaRedactor : Effect
  | genLlamadaScript : Effect
  | crearAsset : Effect
  | logConversacion : LogOutcome → Effect
  | incrementarUso : String → Effect
deriving DecidableEq

/-- Recognizer for a usage-count increment effect. -/
def esIncrementoUso : Effect → Bool
  | .incrementarUso _ => true
  | _ => false

/-- External-world parameters of one /preguntar request: driver
connectivity, the Planner generation text, the Redactor generation text,
their json.loads results, the embedding client and the vector query. -/
structure EnvPregunta where
  driverOk : Bool
  errorDriver : String
  textoPlanificador : Except String String
  parsePlan : String → Option Plan
  genaiEmbed : String → Except String (List ℚ)
  consultaVectorial : Option String → List (List ℚ) → Except String (List ContextItem)
  textoRedactor : Except String String
  parseRespuesta : String → Option JVal

/-- Request body of both endpoints: presence of the pregunta and session_id
keys, with their string values. -/
structure ReqBody where
  pregunta : Option String
  session_id : Option String

/-- The 400 validation body shared by both endpoints (app.py lines 269,
401). -/
def errorValidacionJson : JVal :=
  .obj [("error", .str "Faltan datos requeridos (pregunta, session_id)")]

/-- The structured 500 body of /preguntar (app.py lines 314-317). -/
def respuestaErrorInternoJson : JVal :=
  .obj [("respuesta_principal", .str "Ocurrió un error interno mayor al procesar tu solicitud."),
        ("puntos_clave", .arr []),
        ("fuente", .str "")]

/-- The except branch of manejar_pregunta (app.py lines 303-317): the error
conversation is logged only when pregunta, user_id and session_id are all
truthy, then the structured 500 body is returned.  previos are effects
already performed inside the try block. -/
def fatalPregunta (cfg : LogConfig) (userId : Option String)
    (session_id pregunta mensajeError : String) (previos : List Effect) :
    (Nat × JVal) × List Effect :=
  let efectosLog :=
    if pregunta ≠ "" ∧ userId.getD "" ≠ "" ∧ session_id ≠ "" then
      [Effect.logConversacion (log_conversation_to_supabase cfg
        { usuario_id := userId, sesion_id := session_id, pregunta := pregunta,
          respuesta := .str ("ERROR INTERNO: " ++ mensajeError),
          modelo_ia_usado := "FALLO_RAG" })]
    else []
  ((500, respuestaErrorInternoJson), previos ++ efectosLog)

/-- Embedding of the /preguntar handler manejar_pregunta (app.py lines
253-321): authentication, body validation, driver connection, Planner,
retrieval, composition (fixed answer when the context is empty, otherwise
one Redactor generation call), conversation logging, response. -/
def manejar_pregunta (jwtDecode : String → JwtOutcome) (env : EnvPregunta) (cfg : LogConfig)
    (authHeader : Option String) (cuerpo : Option ReqBody) : (Nat × JVal) × List Effect :=
  match get_auth_user_id authHeader jwtDecode with
  | (_, some e) =>
    ((401, .obj [("error", .str ("Acceso denegado: " ++ e))]), [])
  | (userId, none) =>
    match cuerpo with
    | none => ((400, errorValidacionJson), [])
    | some datos =>
      match datos.pregunta, datos.session_id with
      | some pregunta, some session_id =>
        if env.driverOk then
          let plan := get_plan_de_busqueda env.parsePlan env.textoPlanificador pregunta
          match buscar_en_grafo env.genaiEmbed env.consultaVectorial plan with
          | .ok contexto_items =>
            let par :=
              if contexto_items.isEmpty then (respuestaNoEncontradaJson, ([] : List Effect))
              else (generar_respuesta_final env.textoRedactor env.parseRespuesta,
                    [Effect.genLlamadaRedactor])
            let lo := log_conversation_to_supabase cfg
              { usuario_id := userId, sesion_id := session_id, pregunta := pregunta,
                respuesta := par.1, modelo_ia_usado := generative_model_name }
            ((200, par.1), Effect.genLlamadaPlanificador :: (par.2 ++ [Effect.logConversacion lo]))
          | .error e =>
            fatalPregunta cfg userId session_id pregunta e [Effect.genLlamadaPlanificador]
        else
          fatalPregunta cfg userId session_id pregunta env.errorDriver []
      | _, _ => ((400, errorValidacionJson), [])

/-- Embedding of generar_script_blender (app.py lines 329-382): the parsed
JSON of the generation output as-is, or, when the call or json.loads raises,
a dict whose script field is the fixed error banner followed by the cleaned
exception message. -/
def generar_script_blender (respuestaLlm : Except String String)
    (parseJson : String → Except String JVal) : JVal :=
  match respuestaLlm with
  | .error e =>
    .obj [("script", .str ("# Error al generar el script.\n# " ++ limpiarMensajeError e))]
  | .ok texto =>
    match parseJson (limpiarJsonCrudo texto) with
    | .ok j => j
    | .error e =>
      .obj [("script", .str ("# Error al generar el script.\n# " ++ limpiarMensajeError e))]

/-- Containment of a pattern in a character list: the pattern starts at some
suffix position. -/
def listaContiene (patron : List Char) : List Char → Bool
  | [] => patron.isEmpty
  | c :: resto => patron.isPrefixOf (c :: resto) || listaContiene patron resto

/-- Substring containment as used by the Python in operator on strings. -/
def contieneSubcadena (s patron : String) : Bool :=
  listaContiene patron.data s.data

/-- Default taken by script_dict.get when the script key is missing (app.py
line 413). -/
def scriptPorDefecto : String := "# No se generó código."

/-- The marker checked to detect a failed generation (app.py line 416). -/
def marcadorErrorScript : String := "# Error al generar el script"

/-- External-world parameters of one /generar-script request. -/
structure EnvScript where
  textoScript : Except String String
  parseScript : String → Except String JVal
  driverOk : Bool
  assetId : Int
  errorFatal : String

/-- The except branch of manejar_generacion_script (app.py lines 465-474):
unconditional error logging, then the 500 body whose script field is the
fatal banner with the exception message; asset_id is null and status FALLO. -/
def fatalGenScript (env : EnvScript) (cfg : LogConfig) (userId : Option String)
    (session_id prompt_usuario : String) : (Nat × JVal) × List Effect :=
  let lo := log_conversation_to_supabase cfg
    { usuario_id := userId, sesion_id := session_id, pregunta := prompt_usuario,
      respuesta := .str ("ERROR CRÍTICO SERVER: " ++ env.errorFatal),
      modelo_ia_usado := "FALLO_SERVER" }
  ((500, .obj [("script", .str ("# Error fatal en el servidor: " ++ env.errorFatal)),
               ("asset_id", JVal.null),
               ("status", .str "FALLO")]),
   [Effect.genLlamadaScript, Effect.logConversacion lo])

/-- Embedding of the Python membership test at app.py line 416 on the
extracted script value: substring containment when it is a string, element
membership when it is a list (equality of the marker with a non-string
element is simply False), key membership when it is a dict - none of these
raises in Python.  On None or a number the in operator raises TypeError,
modelled as none and handled by the caller as the fatal branch. -/
def marcadorEn : JVal → Option Bool
  | .str s => some (contieneSubcadena s marcadorErrorScript)
  | .arr elems => some (elems.any (fun v =>
      match v with
      | .str s => s == marcadorErrorScript
      | _ => false))
  | .obj campos => some (campos.any (fun kv => kv.1 == marcadorErrorScript))
  | _ => none

/-- Embedding of the /generar-script handler manejar_generacion_script
(app.py lines 385-478): authentication, validation, one generation call,
script extraction with default, error-marker membership test (500 with the
generator dict when it hits), asset creation in Neo4j, logging, 200
response.  The script value is passed through unchanged - also when it is a
JSON array or object, because the Python in test does not raise on those;
only a null or numeric script value (where in raises TypeError) or a
non-dict generator result lands in the fatal branch. -/
def manejar_generacion_script (jwtDecode : String → JwtOutcome) (env : EnvScript)
    (cfg : LogConfig) (authHeader : Option String) (cuerpo : Option ReqBody) :
    (Nat × JVal) × List Effect :=
  match get_auth_user_id authHeader jwtDecode with
  | (_, some e) =>
    ((401, .obj [("error", .str ("Acceso denegado: " ++ e))]), [])
  | (userId, none) =>
    match cuerpo with
    | none => ((400, errorValidacionJson), [])
    | some datos =>
      match datos.pregunta, datos.session_id with
      | some prompt_usuario, some session_id =>
        let script_dict := generar_script_blender env.textoScript env.parseScript
        match jsonGet script_dict "script" (.str scriptPorDefecto) with
        | some script_code =>
          match marcadorEn script_code with
          | some true =>
            let lo := log_conversation_to_supabase cfg
              { usuario_id := userId, sesion_id := session_id, pregunta := prompt_usuario,
                respuesta := script_code, modelo_ia_usado := "FALLO_BPY_GEN" }
            ((500, script_dict), [Effect.genLlamadaScript, Effect.logConversacion lo])
          | some false =>
            if env.driverOk then
              let lo := log_conversation_to_supabase cfg
                { usuario_id := userId, sesion_id := session_id, pregunta := prompt_usuario,
                  respuesta := script_code, modelo_ia_usado := generative_model_name }
              ((200, .obj [("script", script_code),
                           ("asset_id", .num env.assetId),
                           ("status", .str "PENDIENTE"),
                           ("message", .str "Script generado y guardado. Esperando ejecución por el módulo Worker.")]),
               [Effect.genLlamadaScript, Effect.crearAsset, Effect.logConversacion lo])
            else
              fatalGenScript env cfg userId session_id prompt_usuario
          | none =>
            fatalGenScript env cfg userId session_id prompt_usuario
        | none =>
          fatalGenScript env cfg userId session_id prompt_usuario
      | _, _ => ((400, errorValidacionJson), [])

/-- Per-table summary built by obtener_metricas_memoria in
gemini_maestro.py. -/
structure MetricasTabla where
  total_registros : Nat
  top_conceptos : List String
  cantidad_datos_sin_uso : Nat

/-- One row of the historial_prompts read in obtener_tendencias_usuarios. -/
structure PromptRow where
  prompt_usuario : String
  created_at : String

/-- Store writes the strategist loop can attempt. -/
inductive MaestroWrite where
  | insertInforme : JVal → MaestroWrite

/-- Embedding of guardar_informe (gemini_maestro.py lines 162-188) as the
store writes it attempts: on a JSON object it reaches the insert call (whose
own failure is caught and only logged); on any other value the field reads
raise inside the try and no insert is attempted. -/
def guardar_informe_write (analisis : JVal) : List MaestroWrite :=
  match analisis with
  | .obj _ => [.insertInforme analisis]
  | _ => []

/-- Embedding of one cycle of ciclo_vida_maestro (gemini_maestro.py lines
197-252) as the list of store writes it attempts.  Inputs: the json.loads
oracle, the telemetry read from the store that cycle, and the outcome of the
generation call (error = it raised, handled by the outer except).  The only
skip conditions in the source are empty telemetry, a falsy response text,
and a JSON parse failure; the loop reads no user-activity timestamp. -/
def ciclo_maestro_writes (parseJson : String → Option JVal)
    (metricas : List (String × MetricasTabla)) (prompts : List PromptRow)
    (textoRespuesta : Except String String) : List MaestroWrite :=
  if prompts.isEmpty && metricas.isEmpty then []
  else
    match textoRespuesta with
    | .error _ => []
    | .ok texto =>
      if texto = "" then []
      else
        match parseJson (limpiar_json texto) with
        | none => []
        | some analisis => guardar_informe_write analisis

/-!  Concrete fixtures used by witnesses and counterexamples. -/

/-- A jwt.decode oracle that accepts every token with subject user-1. -/
def wDecode : String → JwtOutcome := fun _ => .ok (some "user-1")

/-- A logging environment whose insert succeeds. -/
def wCfg : LogConfig := { configured := true, insertar := fun _ => .ok () }

/-- A logging environment whose insert raises. -/
def wCfgFalla : LogConfig := { configured := true, insertar := fun _ => .error "insert down" }

/-- A valid request body. -/
def wBody : ReqBody := { pregunta := some "como muevo un objeto", session_id := some "ses-1" }

/-- A /preguntar environment in which every external AI call fails, so
retrieval finds nothing. -/
def wEnvSinDatos : EnvPregunta :=
  { driverOk := true
    errorDriver := "neo4j down"
    textoPlanificador := .error "timeout"
    parsePlan := fun _ => none
    genaiEmbed := fun _ => .error "embed down"
    consultaVectorial := fun _ _ => .error "nunca llamado"
    textoRedactor := .error "nunca llamado"
    parseRespuesta := fun _ => none }

/-- A retrieved item used by concrete runs. -/
def wItem : ContextItem :=
  { tipo := "Texto", contenido := "Mover objetos", pagina := 12,
    capitulo := "Transformaciones", parte := "Modelado", score := 2 }

/-- A parsed Redactor answer used by concrete runs. -/
def wAnswer : JVal :=
  .obj [("respuesta_principal", .str "Selecciona el objeto y pulsa G."),
        ("puntos_clave", .arr []),
        ("fuente", .str "Transformaciones (Parte: Modelado, Pag 12)")]

/-- A /preguntar environment in which retrieval finds wItem and the Redactor
answers wAnswer. -/
def wEnvExito : EnvPregunta :=
  { driverOk := true
    errorDriver := "neo4j down"
    textoPlanificador := .error "timeout"
    parsePlan := fun _ => none
    genaiEmbed := fun _ => .ok [1, 0, 0]
    consultaVectorial := fun _ _ => .ok [wItem]
    textoRedactor := .ok "bruto"
    parseRespuesta := fun _ => some wAnswer }

/-- A /generar-script environment whose generation call raises. -/
def wEnvScriptErr : EnvScript :=
  { textoScript := .error "boom"
    parseScript := fun _ => .error "no json"
    driverOk := true
    assetId := 7
    errorFatal := "neo4j down" }

/-- Duplicate-content items for the deduplication witness: two records share
contenido at different boosted scores, one other record sits in between. -/
def wItemAlto : ContextItem :=
  { tipo := "Texto", contenido := "Mover objetos", pagina := 12,
    capitulo := "Transformaciones", parte := "Modelado", score := 2 }

/-- Middle record with different contenido. -/
def wItemOtro : ContextItem :=
  { tipo := "Texto", contenido := "Rotar objetos", pagina := 14,
    capitulo := "Transformaciones", parte := "Modelado", score := 1 }

/-- Lower-scored duplicate of wItemAlto's contenido. -/
def wItemBajo : ContextItem :=
  { tipo := "Texto", contenido := "Mover objetos", pagina := 30,
    capitulo := "Atajos", parte := "Interfaz", score := 0 }

/-- Embedding oracle for the deduplication witness. -/
def wEmbedC6 : String → Except String (List ℚ) := fun _ => .ok [1]

/-- Plan with two subqueries for the deduplication witness. -/
def wPlanC6 : Plan :=
  { capitulo_enfocado := some "Transformaciones", consultas_busqueda := ["a", "b"] }

/-- Vector query oracle returning a descending-ordered result with a
duplicated contenido. -/
def wBusquedaC6 : Option String → List (List ℚ) → Except String (List ContextItem) :=
  fun _ _ => .ok [wItemAlto, wItemOtro, wItemBajo]

/-- One recent user prompt for the strategist-loop fixtures. -/
def wPrompt : PromptRow := { prompt_usuario := "haz un cubo", created_at := "2026-01-01" }

/-- A parsed strategist report (a JSON object, so the insert is reached). -/
def wInforme : JVal := .obj [("nombre_clave", .str "informe_automatico_v24")]

/-- json.loads oracle returning wInforme. -/
def wParseInforme : String → Option JVal := fun _ => some wInforme

/-!  Helper lemmas. -/

/-- When every subquery embedding fails, no vector survives the filter. -/
lemma vectoresDeBusqueda_vacio (genaiEmbed : String → Except String (List ℚ))
    (consultas : List String)
    (h : ∀ c ∈ consultas, get_text_embedding (genaiEmbed c) = none) :
    vectoresDeBusqueda genaiEmbed consultas = [] := by
  induction consultas with
  | nil => rfl
  | cons c resto ih =>
    have hc := h c (List.mem_cons_self _ _)
    simp only [vectoresDeBusqueda, hc]
    exact ih (fun d hd => h d (List.mem_cons_of_mem _ hd))

/-- Every element of the deduplicated list comes from the input list. -/
lemma dedupVistos_subconjunto :
    ∀ (l : List ContextItem) (vistos : List String) (x : ContextItem),
      x ∈ dedupVistos l vistos → x ∈ l := by
  intro l
  induction l with
  | nil => intro vistos x hx; simp [dedupVistos] at hx
  | cons item resto ih =>
    intro vistos x hx
    simp only [dedupVistos] at hx
    by_cases h : item.contenido ∈ vistos
    · rw [if_pos h] at hx
      exact List.mem_cons_of_mem _ (ih vistos x hx)
    · rw [if_neg h] at hx
      rcases List.mem_cons.mp hx with rfl | hx2
      · exact List.mem_cons_self _ _
      · exact List.mem_cons_of_mem _ (ih _ x hx2)

/-- A contenido already seen never appears in the deduplicated output. -/
lemma dedupVistos_countP_visto (c : String) :
    ∀ (l : List ContextItem) (vistos : List String), c ∈ vistos →
      (dedupVistos l vistos).countP (fun i => i.contenido == c) = 0 := by
  intro l
  induction l with
  | nil => intro vistos _; simp [dedupVistos]
  | cons item resto ih =>
    intro vistos hc
    simp only [dedupVistos]
    by_cases h : item.contenido ∈ vistos
    · rw [if_pos h]
      exact ih vistos hc
    · have hne : (item.contenido == c) = false := by
        refine beq_eq_false_iff_ne.mpr ?_
        intro hEq
        exact h (hEq ▸ hc)
      rw [if_neg h]
      rw [List.countP_cons]
      simp only [hne, if_false]
      simpa using ih (item.contenido :: vistos) (List.mem_cons_of_mem _ hc)

/-- An unseen contenido that occurs in the input appears exactly once in the
deduplicated output. -/
lemma dedupVistos_countP_nuevo (c : String) :
    ∀ (l : List ContextItem) (vistos : List String), c ∉ vistos →
      (∃ x ∈ l, x.contenido = c) →
      (dedupVistos l vistos).countP (fun i => i.contenido == c) = 1 := by
  intro l
  induction l with
  | nil =>
    rintro vistos _ ⟨x, hx, _⟩
    exact absurd hx (List.not_mem_nil x)
  | cons item resto ih =>
    rintro vistos hcv ⟨x, hx, hxc⟩
    simp only [dedupVistos]
    by_cases h : item.contenido ∈ vistos
    · have hic : item.contenido ≠ c := fun hEq => hcv (hEq ▸ h)
      have hxr : x ∈ resto := by
        rcases List.mem_cons.mp hx with rfl | hr
        · exact absurd hxc hic
        · exact hr
      rw [if_pos h]
      exact ih vistos hcv ⟨x, hxr, hxc⟩
    · rw [if_neg h, List.countP_cons]
      by_cases hic : item.contenido = c
      · subst hic
        have hcero : (dedupVistos resto (item.contenido :: vistos)).countP
            (fun i => i.contenido == item.contenido) = 0 :=
          dedupVistos_countP_visto item.contenido resto _ (List.mem_cons_self _ _)
        simp [hcero]
      · have hbeq : (item.contenido == c) = false := beq_eq_false_iff_ne.mpr hic
        have hxr : x ∈ resto := by
          rcases List.mem_cons.mp hx with rfl | hr
          · exact absurd hxc hic
          · exact hr
        have hc2 : c ∉ item.contenido :: vistos := by
          intro hmem
          rcases List.mem_cons.mp hmem with hEq | hmem2
          · exact hic hEq.symm
          · exact hcv hmem2
        simp only [hbeq, if_false]
        simpa using ih (item.contenido :: vistos) hc2 ⟨x, hxr, hxc⟩

/-- On a list ordered by descending score, the deduplicated output keeps,
for each occurring contenido, a representative whose score dominates every
occurrence of that contenido in the input. -/
lemma dedupVistos_puntaje_maximo (c : String) :
    ∀ (l : List ContextItem) (vistos : List String),
      l.Pairwise (fun a b => b.score ≤ a.score) →
      c ∉ vistos → (∃ x ∈ l, x.contenido = c) →
      ∃ y ∈ dedupVistos l vistos, y.contenido = c ∧
        ∀ i ∈ l, i.contenido = c → i.score ≤ y.score := by
  intro l
  induction l with
  | nil =>
    rintro vistos _ _ ⟨x, hx, _⟩
    exact absurd hx (List.not_mem_nil x)
  | cons item resto ih =>
    rintro vistos hsort hcv ⟨x, hx, hxc⟩
    have hpair := List.pairwise_cons.mp hsort
    by_cases hic : item.contenido = c
    · have hiv : item.contenido ∉ vistos := fun hm => hcv (hic ▸ hm)
      refine ⟨item, ?_, hic, ?_⟩
      · simp only [dedupVistos, if_neg hiv]
        exact List.mem_cons_self _ _
      · intro i hi _
        rcases List.mem_cons.mp hi with rfl | hr
        · exact le_refl _
        · exact hpair.1 i hr
    · have hxr : x ∈ resto := by
        rcases List.mem_cons.mp hx with rfl | hr
        · exact absurd hxc hic
        · exact hr
      by_cases hv : item.contenido ∈ vistos
      · obtain ⟨y, hy, hyc, hymax⟩ := ih vistos hpair.2 hcv ⟨x, hxr, hxc⟩
        refine ⟨y, ?_, hyc, ?_⟩
        · simp only [dedupVistos, if_pos hv]
          exact hy
        · intro i hi hic2
          rcases List.mem_cons.mp hi with rfl | hr
          · exact absurd hic2 hic
          · exact hymax i hr hic2
      · have hc2 : c ∉ item.contenido :: vistos := by
          intro hm
          rcases List.mem_cons.mp hm with hEq | hm2
          · exact hic hEq.symm
          · exact hcv hm2
        obtain ⟨y, hy, hyc, hymax⟩ := ih (item.contenido :: vistos) hpair.2 hc2 ⟨x, hxr, hxc⟩
        refine ⟨y, ?_, hyc, ?_⟩
        · simp only [dedupVistos, if_neg hv]
          exact List.mem_cons_of_mem _ hy
        · intro i hi hic2
          rcases List.mem_cons.mp hi with rfl | hr
          · exact absurd hic2 hic
          · exact hymax i hr hic2

/-!  Claim theorems. -/

/-- C4: for every user question, when the Planner generation call raises or
its response fails JSON parsing, get_plan_de_busqueda returns the fallback
plan with a null focused chapter and the original question as the only
subquery. -/
theorem C4_planificador_fallback (parseJson : String → Option Plan)
    (respuestaLlm : Except String String) (pregunta : String)
    (h : (∃ e, respuestaLlm = .error e) ∨
      ∀ t, respuestaLlm = .ok t → parseJson (limpiarJsonCrudo t) = none) :
    get_plan_de_busqueda parseJson respuestaLlm pregunta =
      { capitulo_enfocado := none, consultas_busqueda := [pregunta] } := by
  cases respuestaLlm with
  | error e => rfl
  | ok t =>
    rcases h with ⟨e, he⟩ | hparse
    · cases he
    · simp only [get_plan_de_busqueda, hparse t rfl]

/-- Witness for C4 at a concrete failing generation call. -/
theorem C4_planificador_fallback_witness :
    get_plan_de_busqueda (fun _ => none) (.error "timeout") "como muevo un objeto" =
      { capitulo_enfocado := none, consultas_busqueda := ["como muevo un objeto"] } :=
  C4_planificador_fallback (fun _ => none) (.error "timeout") "como muevo un objeto"
    (.inl ⟨"timeout", rfl⟩)

/-- C5: when every subquery of the plan fails to embed (the embedding client
returns its None sentinel), buscar_en_grafo returns the empty context list
without error, for every vector-search oracle - in particular the search is
never consulted, since no vector survives the filter. -/
theorem C5_sin_embeddings_contexto_vacio (genaiEmbed : String → Except String (List ℚ))
    (consultaVectorial : Option String → List (List ℚ) → Except String (List ContextItem))
    (plan : Plan)
    (h : ∀ c ∈ plan.consultas_busqueda, get_text_embedding (genaiEmbed c) = none) :
    buscar_en_grafo genaiEmbed consultaVectorial plan = .ok [] := by
  have hv := vectoresDeBusqueda_vacio genaiEmbed plan.consultas_busqueda h
  simp [buscar_en_grafo, hv]

/-- Witness for C5: two subqueries, both embeddings fail, and a search
oracle that would raise if it were ever consulted. -/
theorem C5_sin_embeddings_contexto_vacio_witness :
    buscar_en_grafo (fun _ => .error "embed caido") (fun _ _ => .error "nunca llamado")
      { capitulo_enfocado := none, consultas_busqueda := ["a", "b"] } = .ok [] :=
  C5_sin_embeddings_contexto_vacio (fun _ => .error "embed caido")
    (fun _ _ => .error "nunca llamado")
    { capitulo_enfocado := none, consultas_busqueda := ["a", "b"] }
    (fun _ _ => rfl)

/-- C6: when the vector query returns a result list ordered by descending
(boosted) score, the deduplicated context set returned by buscar_en_grafo
contains each occurring contenido exactly once, represented by an element
whose score dominates every occurrence of that contenido - so a knowledge
item matched by two subqueries appears once, at its highest effective
score. -/
theorem C6_dedup_puntaje_maximo (genaiEmbed : String → Except String (List ℚ))
    (consultaVectorial : Option String → List (List ℚ) → Except String (List ContextItem))
    (plan : Plan) (encontrado : List ContextItem)
    (hvec : (vectoresDeBusqueda genaiEmbed plan.consultas_busqueda).isEmpty = false)
    (hbusqueda : consultaVectorial plan.capitulo_enfocado
        (vectoresDeBusqueda genaiEmbed plan.consultas_busqueda) = .ok encontrado)
    (horden : encontrado.Pairwise (fun a b => b.score ≤ a.score))
    (x : ContextItem) (hx : x ∈ encontrado) :
    buscar_en_grafo genaiEmbed consultaVectorial plan = .ok (contextoLimpio encontrado) ∧
    (contextoLimpio encontrado).countP (fun i => i.contenido == x.contenido) = 1 ∧
    ∃ y ∈ contextoLimpio encontrado, y.contenido = x.contenido ∧
      ∀ i ∈ encontrado, i.contenido = x.contenido → i.score ≤ y.score := by
  refine ⟨?_, ?_, ?_⟩
  · simp [buscar_en_grafo, hvec, hbusqueda]
  · exact dedupVistos_countP_nuevo x.contenido encontrado [] (List.not_mem_nil _)
      ⟨x, hx, rfl⟩
  · exact dedupVistos_puntaje_maximo x.contenido encontrado [] horden (List.not_mem_nil _)
      ⟨x, hx, rfl⟩

/-- Witness for C6: two subqueries both match contenido "Mover objetos" (at
scores 2 and 0) with another item in between; the deduplicated set keeps it
once at score 2. -/
theorem C6_dedup_puntaje_maximo_witness :
    buscar_en_grafo wEmbedC6 wBusquedaC6 wPlanC6 =
      .ok (contextoLimpio [wItemAlto, wItemOtro, wItemBajo]) ∧
    (contextoLimpio [wItemAlto, wItemOtro, wItemBajo]).countP
      (fun i => i.contenido == wItemAlto.contenido) = 1 ∧
    ∃ y ∈ contextoLimpio [wItemAlto, wItemOtro, wItemBajo],
      y.contenido = wItemAlto.contenido ∧
      ∀ i ∈ [wItemAlto, wItemOtro, wItemBajo],
        i.contenido = wItemAlto.contenido → i.score ≤ y.score :=
  C6_dedup_puntaje_maximo wEmbedC6 wBusquedaC6 wPlanC6 [wItemAlto, wItemOtro, wItemBajo]
    rfl rfl
    (by
      simp only [List.pairwise_cons, List.mem_cons, List.not_mem_nil, wItemAlto, wItemOtro,
        wItemBajo, List.Pairwise.nil]
      norm_num)
    wItemAlto (List.mem_cons_self _ _)

/-- The HTTP response (status and body) of /preguntar does not depend on the
logging environment: logging outcomes only appear in the effect trace. -/
lemma manejar_pregunta_indep_log (jwtDecode : String → JwtOutcome) (env : EnvPregunta)
    (cfg cfg' : LogConfig) (authHeader : Option String) (cuerpo : Option ReqBody) :
    (manejar_pregunta jwtDecode env cfg authHeader cuerpo).1 =
    (manejar_pregunta jwtDecode env cfg' authHeader cuerpo).1 := by
  rcases hga : get_auth_user_id authHeader jwtDecode with ⟨uid, err⟩
  cases err with
  | some e => simp [manejar_pregunta, hga]
  | none =>
    cases cuerpo with
    | none => simp [manejar_pregunta, hga]
    | some datos =>
      rcases hp : datos.pregunta with _ | pregunta
      · simp [manejar_pregunta, hga, hp]
      · rcases hs : datos.session_id with _ | sid
        · simp [manejar_pregunta, hga, hp, hs]
        · cases hd : env.driverOk with
          | false => simp [manejar_pregunta, fatalPregunta, hga, hp, hs, hd]
          | true =>
            cases hb : buscar_en_grafo env.genaiEmbed env.consultaVectorial
                (get_plan_de_busqueda env.parsePlan env.textoPlanificador pregunta) with
            | ok ctx => simp [manejar_pregunta, hga, hp, hs, hd, hb]
            | error e => simp [manejar_pregunta, fatalPregunta, hga, hp, hs, hd, hb]

/-- The HTTP response of /generar-script does not depend on the logging
environment. -/
lemma manejar_generacion_script_indep_log (jwtDecode : String → JwtOutcome) (env : EnvScript)
    (cfg cfg' : LogConfig) (authHeader : Option String) (cuerpo : Option ReqBody) :
    (manejar_generacion_script jwtDecode env cfg authHeader cuerpo).1 =
    (manejar_generacion_script jwtDecode env cfg' authHeader cuerpo).1 := by
  rcases hga : get_auth_user_id authHeader jwtDecode with ⟨uid, err⟩
  cases err with
  | some e => simp [manejar_generacion_script, hga]
  | none =>
    cases cuerpo with
    | none => simp [manejar_generacion_script, hga]
    | some datos =>
      rcases hp : datos.pregunta with _ | prompt
      · simp [manejar_generacion_script, hga, hp]
      · rcases hs : datos.session_id with _ | sid
        · simp [manejar_generacion_script, hga, hp, hs]
        · rcases hsd : jsonGet (generar_script_blender env.textoScript env.parseScript)
              "script" (.str scriptPorDefecto) with _ | valor
          · simp [manejar_generacion_script, fatalGenScript, hga, hp, hs, hsd]
          · rcases hm : marcadorEn valor with _ | b
            · simp [manejar_generacion_script, fatalGenScript, hga, hp, hs, hsd, hm]
            · cases b with
              | true => simp [manejar_generacion_script, hga, hp, hs, hsd, hm]
              | false =>
                cases hd : env.driverOk with
                | false =>
                  simp [manejar_generacion_script, fatalGenScript, hga, hp, hs, hsd, hm, hd]
                | true => simp [manejar_generacion_script, hga, hp, hs, hsd, hm, hd]

/-- C1: for every authenticated, well-formed /preguntar request whose
retrieval step yields an empty context set, the handler answers 200 with the
fixed not-found object - main text equal to the fixed sentence, empty
puntos_clave, empty fuente - and its effect trace contains no Redactor
generation call: the fixed answer is produced without any generative call. -/
theorem C1_contexto_vacio_respuesta_fija (jwtDecode : String → JwtOutcome)
    (env : EnvPregunta) (cfg : LogConfig) (authHeader : Option String)
    (datos : ReqBody) (pregunta session_id : String)
    (hauth : (get_auth_user_id authHeader jwtDecode).2 = none)
    (hp : datos.pregunta = some pregunta) (hs : datos.session_id = some session_id)
    (hdrv : env.driverOk = true)
    (hret : buscar_en_grafo env.genaiEmbed env.consultaVectorial
      (get_plan_de_busqueda env.parsePlan env.textoPlanificador pregunta) = .ok []) :
    (manejar_pregunta jwtDecode env cfg authHeader (some datos)).1 =
      (200, respuestaNoEncontradaJson) ∧
    respField respuestaNoEncontradaJson "respuesta_principal" =
      some (.str mensajeNoEncontrado) ∧
    respField respuestaNoEncontradaJson "puntos_clave" = some (.arr []) ∧
    respField respuestaNoEncontradaJson "fuente" = some (.str "") ∧
    Effect.genLlamadaRedactor ∉ (manejar_pregunta jwtDecode env cfg authHeader (some datos)).2 := by
  rcases hga : get_auth_user_id authHeader jwtDecode with ⟨uid, err⟩
  rw [hga] at hauth
  simp only at hauth
  subst hauth
  refine ⟨?_, rfl, rfl, rfl, ?_⟩
  · simp [manejar_pregunta, hga, hp, hs, hdrv, hret]
  · simp [manejar_pregunta, hga, hp, hs, hdrv, hret]

/-- Witness for C1: a concrete request in which every embedding fails, so
retrieval is empty, and the fixed answer is returned with no Redactor call. -/
theorem C1_contexto_vacio_respuesta_fija_witness :
    (get_auth_user_id (some "Bearer tok") wDecode).2 = none ∧
    buscar_en_grafo wEnvSinDatos.genaiEmbed wEnvSinDatos.consultaVectorial
      (get_plan_de_busqueda wEnvSinDatos.parsePlan wEnvSinDatos.textoPlanificador
        "como muevo un objeto") = .ok [] ∧
    (manejar_pregunta wDecode wEnvSinDatos wCfg (some "Bearer tok") (some wBody)).1 =
      (200, respuestaNoEncontradaJson) ∧
    Effect.genLlamadaRedactor ∉
      (manejar_pregunta wDecode wEnvSinDatos wCfg (some "Bearer tok") (some wBody)).2 := by
  have h := C1_contexto_vacio_respuesta_fija wDecode wEnvSinDatos wCfg (some "Bearer tok")
    wBody "como muevo un objeto" "ses-1" rfl rfl rfl rfl rfl
  exact ⟨rfl, rfl, h.1, h.2.2.2.2⟩

/-- C2 counterexample: the claim says an empty pregunta gets HTTP 400, but a
request whose pregunta is the empty string passes validation (the code only
checks key presence) and is answered with HTTP 200. -/
theorem C2_counterexample :
    (manejar_pregunta wDecode wEnvSinDatos wCfg (some "Bearer tok")
      (some { pregunta := some "", session_id := some "ses-1" })).1.1 ≠ 400 ∧
    (manejar_pregunta wDecode wEnvSinDatos wCfg (some "Bearer tok")
      (some { pregunta := some "", session_id := some "ses-1" })).1.1 = 200 := by
  exact ⟨by decide, rfl⟩

/-- C2 (amended): for every authenticated /preguntar request whose body is
absent or lacks the pregunta key (or the session_id key), the endpoint
returns HTTP 400 with the error field; an empty-string pregunta value is not
rejected. -/
theorem C2_validacion_pregunta_ausente (jwtDecode : String → JwtOutcome)
    (env : EnvPregunta) (cfg : LogConfig) (authHeader : Option String)
    (cuerpo : Option ReqBody)
    (hauth : (get_auth_user_id authHeader jwtDecode).2 = none)
    (hval : cuerpo = none ∨
      ∃ datos, cuerpo = some datos ∧ (datos.pregunta = none ∨ datos.session_id = none)) :
    (manejar_pregunta jwtDecode env cfg authHeader cuerpo).1.1 = 400 ∧
    respField (manejar_pregunta jwtDecode env cfg authHeader cuerpo).1.2 "error" =
      some (.str "Faltan datos requeridos (pregunta, session_id)") := by
  rcases hga : get_auth_user_id authHeader jwtDecode with ⟨uid, err⟩
  rw [hga] at hauth
  simp only at hauth
  subst hauth
  rcases hval with rfl | ⟨datos, rfl, hcampo⟩
  · constructor <;> simp [manejar_pregunta, hga, errorValidacionJson, respField, jsonLookup]
  · rcases hcampo with hp | hs
    · constructor <;>
        simp [manejar_pregunta, hga, hp, errorValidacionJson, respField, jsonLookup]
    · rcases hp : datos.pregunta with _ | pregunta <;> constructor <;>
        simp [manejar_pregunta, hga, hp, hs, errorValidacionJson, respField, jsonLookup]

/-- Witness for C2 (amended): a concrete authenticated request with a body
that lacks the pregunta key gets 400 with the error field. -/
theorem C2_validacion_pregunta_ausente_witness :
    (get_auth_user_id (some "Bearer tok") wDecode).2 = none ∧
    (manejar_pregunta wDecode wEnvSinDatos wCfg (some "Bearer tok")
      (some { pregunta := none, session_id := some "ses-1" })).1.1 = 400 ∧
    respField (manejar_pregunta wDecode wEnvSinDatos wCfg (some "Bearer tok")
      (some { pregunta := none, session_id := some "ses-1" })).1.2 "error" =
      some (.str "Faltan datos requeridos (pregunta, session_id)") := by
  have h := C2_validacion_pregunta_ausente wDecode wEnvSinDatos wCfg (some "Bearer tok")
    (some { pregunta := none, session_id := some "ses-1" }) rfl
    (.inr ⟨_, rfl, .inl rfl⟩)
  exact ⟨rfl, h.1, h.2⟩

/-- C9: for every request to either endpoint that fails authentication
(missing header, malformed header, expired token, invalid signature or any
other verification failure), the handler returns 401 with the error field
and an empty effect trace - no retrieval, generation or logging happens -
regardless of the body, so a request with both a bad token and a missing
pregunta gets 401, not 400. -/
theorem C9_autenticacion_primero (jwtDecode : String → JwtOutcome)
    (envP : EnvPregunta) (envS : EnvScript) (cfg cfg' : LogConfig)
    (authHeader : Option String) (cuerpo : Option ReqBody) (e : String)
    (hauth : (get_auth_user_id authHeader jwtDecode).2 = some e) :
    manejar_pregunta jwtDecode envP cfg authHeader cuerpo =
      ((401, .obj [("error", .str ("Acceso denegado: " ++ e))]), []) ∧
    manejar_generacion_script jwtDecode envS cfg' authHeader cuerpo =
      ((401, .obj [("error", .str ("Acceso denegado: " ++ e))]), []) := by
  rcases hga : get_auth_user_id authHeader jwtDecode with ⟨uid, err⟩
  rw [hga] at hauth
  simp only at hauth
  subst hauth
  constructor <;> simp [manejar_pregunta, manejar_generacion_script, hga]

/-- Witness for C9: a request without Authorization header and without the
pregunta field gets 401, not 400, on /preguntar. -/
theorem C9_autenticacion_primero_witness :
    (get_auth_user_id none wDecode).2 = some "Authorization token is missing" ∧
    manejar_pregunta wDecode wEnvSinDatos wCfg none
        (some { pregunta := none, session_id := none }) =
      ((401, .obj [("error", .str "Acceso denegado: Authorization token is missing")]), []) := by
  have h := C9_autenticacion_primero wDecode wEnvSinDatos wEnvScriptErr wCfg wCfg none
    (some { pregunta := none, session_id := none }) "Authorization token is missing" rfl
  exact ⟨rfl, h.1⟩

/-- The effect trace of /preguntar never contains a usage-count increment:
no branch of the handler emits one. -/
lemma manejar_pregunta_sin_incrementos (jwtDecode : String → JwtOutcome) (env : EnvPregunta)
    (cfg : LogConfig) (authHeader : Option String) (cuerpo : Option ReqBody) :
    (manejar_pregunta jwtDecode env cfg authHeader cuerpo).2.countP esIncrementoUso = 0 := by
  rcases hga : get_auth_user_id authHeader jwtDecode with ⟨uid, err⟩
  cases err with
  | some e => simp [manejar_pregunta, hga]
  | none =>
    cases cuerpo with
    | none => simp [manejar_pregunta, hga]
    | some datos =>
      rcases hp : datos.pregunta with _ | pregunta
      · simp [manejar_pregunta, hga, hp]
      · rcases hs : datos.session_id with _ | sid
        · simp [manejar_pregunta, hga, hp, hs]
        · cases hd : env.driverOk with
          | false =>
            by_cases hlog : pregunta ≠ "" ∧ uid.getD "" ≠ "" ∧ sid ≠ "" <;>
              simp [manejar_pregunta, fatalPregunta, hga, hp, hs, hd, hlog,
                List.countP_cons, List.countP_append, esIncrementoUso]
          | true =>
            cases hb : buscar_en_grafo env.genaiEmbed env.consultaVectorial
                (get_plan_de_busqueda env.parsePlan env.textoPlanificador pregunta) with
            | ok ctx =>
              by_cases hemp : ctx.isEmpty <;>
                simp [manejar_pregunta, hga, hp, hs, hd, hb, hemp,
                  List.countP_cons, List.countP_append, esIncrementoUso]
            | error e =>
              by_cases hlog : pregunta ≠ "" ∧ uid.getD "" ≠ "" ∧ sid ≠ "" <;>
                simp [manejar_pregunta, fatalPregunta, hga, hp, hs, hd, hb, hlog,
                  List.countP_cons, List.countP_append, esIncrementoUso]

/-- C7 counterexample: a concrete successfully answered question - context
contains the contributing item wItem and the composed answer is returned
with 200 - whose effect trace contains no usage-count increment, refuting
the claim that each contributing item's usage count is incremented. -/
theorem C7_counterexample :
    buscar_en_grafo wEnvExito.genaiEmbed wEnvExito.consultaVectorial
      (get_plan_de_busqueda wEnvExito.parsePlan wEnvExito.textoPlanificador
        "como muevo un objeto") = .ok [wItem] ∧
    (manejar_pregunta wDecode wEnvExito wCfg (some "Bearer tok") (some wBody)).1 =
      (200, wAnswer) ∧
    (manejar_pregunta wDecode wEnvExito wCfg (some "Bearer tok") (some wBody)).2.countP
      esIncrementoUso = 0 :=
  ⟨rfl, rfl, rfl⟩

/-- C7 (amended): the /preguntar handler performs no usage-count increment
operation at all - its only post-answer side effect is conversation logging
- and a failure of that logging side effect does not change the HTTP
response. -/
theorem C7_sin_incremento_de_uso (jwtDecode : String → JwtOutcome) (env : EnvPregunta)
    (cfg cfg' : LogConfig) (authHeader : Option String) (cuerpo : Option ReqBody) :
    (manejar_pregunta jwtDecode env cfg authHeader cuerpo).2.countP esIncrementoUso = 0 ∧
    (manejar_pregunta jwtDecode env cfg authHeader cuerpo).1 =
      (manejar_pregunta jwtDecode env cfg' authHeader cuerpo).1 :=
  ⟨manejar_pregunta_sin_incrementos jwtDecode env cfg authHeader cuerpo,
   manejar_pregunta_indep_log jwtDecode env cfg cfg' authHeader cuerpo⟩

/-- A log row used by the C10 witness. -/
def wFila : LogRow :=
  { usuario_id := some "user-1", sesion_id := "ses-1",
    pregunta := "como muevo un objeto", respuesta := wAnswer,
    modelo_ia_usado := generative_model_name }

/-- C10: log_conversation_to_supabase is total - with an unconfigured client
it returns the no-client outcome, and when the insert raises it returns the
insert-failed outcome instead of propagating - and the logging environment
never changes the HTTP response of either endpoint. -/
theorem C10_logging_total_e_inocuo (cfg cfg' : LogConfig) (fila : LogRow)
    (jwtDecode : String → JwtOutcome) (envP : EnvPregunta) (envS : EnvScript)
    (authHeader : Option String) (cuerpo : Option ReqBody) :
    (cfg.configured = false → log_conversation_to_supabase cfg fila = .noClient) ∧
    (∀ e, cfg.configured = true → cfg.insertar fila = .error e →
      log_conversation_to_supabase cfg fila = .insertFailed e) ∧
    (manejar_pregunta jwtDecode envP cfg authHeader cuerpo).1 =
      (manejar_pregunta jwtDecode envP cfg' authHeader cuerpo).1 ∧
    (manejar_generacion_script jwtDecode envS cfg authHeader cuerpo).1 =
      (manejar_generacion_script jwtDecode envS cfg' authHeader cuerpo).1 := by
  refine ⟨?_, ?_, ?_, ?_⟩
  · intro h
    simp [log_conversation_to_supabase, h]
  · intro e hc he
    simp [log_conversation_to_supabase, hc, he]
  · exact manejar_pregunta_indep_log jwtDecode envP cfg cfg' authHeader cuerpo
  · exact manejar_generacion_script_indep_log jwtDecode envS cfg cfg' authHeader cuerpo

/-- Witness for C10: a concrete failing insert is swallowed into the
insert-failed outcome and the /preguntar response is the same as with a
succeeding insert. -/
theorem C10_logging_total_e_inocuo_witness :
    wCfgFalla.insertar wFila = .error "insert down" ∧
    log_conversation_to_supabase wCfgFalla wFila = .insertFailed "insert down" ∧
    (manejar_pregunta wDecode wEnvExito wCfgFalla (some "Bearer tok") (some wBody)).1 =
      (manejar_pregunta wDecode wEnvExito wCfg (some "Bearer tok") (some wBody)).1 := by
  have h := C10_logging_total_e_inocuo wCfgFalla wCfg wFila wDecode wEnvExito wEnvScriptErr
    (some "Bearer tok") (some wBody)
  exact ⟨rfl, h.2.1 "insert down" rfl rfl, h.2.2.1⟩

/-- The default script text never contains the error marker, so the default
path cannot enter the failed-generation branch. -/
lemma marcador_no_en_defecto :
    contieneSubcadena scriptPorDefecto marcadorErrorScript = false := by decide

/-- A prefix of a list is still a prefix after appending on the right. -/
lemma isPrefixOf_de_append (p : List Char) :
    ∀ l m : List Char, p.isPrefixOf l = true → p.isPrefixOf (l ++ m) = true := by
  induction p with
  | nil => intro l m _; simp [List.isPrefixOf]
  | cons a as ih =>
    intro l m h
    cases l with
    | nil => simp [List.isPrefixOf] at h
    | cons b bs =>
      simp only [List.isPrefixOf, Bool.and_eq_true] at h
      simp only [List.cons_append, List.isPrefixOf, Bool.and_eq_true]
      exact ⟨h.1, ih bs m h.2⟩

/-- A pattern that is a prefix of a list is contained in it. -/
lemma listaContiene_de_prefijo (p : List Char) :
    ∀ l : List Char, p.isPrefixOf l = true → listaContiene p l = true := by
  intro l h
  cases l with
  | nil =>
    cases p with
    | nil => rfl
    | cons c cs => simp [List.isPrefixOf] at h
  | cons c resto => simp [listaContiene, h]

/-- Appending strings concatenates their character lists. -/
lemma data_de_append (s t : String) : (s ++ t).data = s.data ++ t.data := rfl

/-- The error banner built by generar_script_blender always contains the
error marker, whatever the cleaned exception message is: the marker is a
prefix of the banner. -/
lemma marcador_en_banner (x : String) :
    contieneSubcadena ("# Error al generar el script.\n# " ++ x) marcadorErrorScript = true := by
  have h1 : marcadorErrorScript.data.isPrefixOf
      ("# Error al generar el script.\n# " : String).data = true := by decide
  have h2 : marcadorErrorScript.data.isPrefixOf
      (("# Error al generar el script.\n# " : String).data ++ x.data) = true :=
    isPrefixOf_de_append _ _ _ h1
  unfold contieneSubcadena
  rw [data_de_append]
  exact listaContiene_de_prefijo _ _ h2

/-- C3 counterexample: a /generar-script request with a missing
Authorization header is answered 401 with a body that has no script field at
all, refuting the claim that every response of the endpoint contains a
string script field. -/
theorem C3_counterexample :
    (manejar_generacion_script wDecode wEnvScriptErr wCfg none (some wBody)).1.1 = 401 ∧
    respField (manejar_generacion_script wDecode wEnvScriptErr wCfg none (some wBody)).1.2
      "script" = none :=
  ⟨rfl, rfl⟩

/-- C3 (amended): every response of the /generar-script handler body - that
is, every response except the 401 authentication and the 400 validation
ones, which carry only an error field - contains a script field; that field
is a string whenever the generation call throws (the banner dict hits the
marker test and the 500 response carries it), and a null script value never
surfaces (the membership test raises TypeError and the fatal path
substitutes a string).  The field is, however, not always string-typed: an
array- or object-valued script emitted by the LLM passes the membership
test without raising and is returned unchanged. -/
theorem C3_script_presente (jwtDecode : String → JwtOutcome) (env : EnvScript)
    (cfg : LogConfig) (authHeader : Option String) (datos : ReqBody)
    (prompt session_id : String)
    (hauth : (get_auth_user_id authHeader jwtDecode).2 = none)
    (hp : datos.pregunta = some prompt) (hs : datos.session_id = some session_id) :
    (∃ v, respField (manejar_generacion_script jwtDecode env cfg authHeader (some datos)).1.2
        "script" = some v) ∧
    (∀ e, env.textoScript = .error e →
      ∃ codigo : String,
        respField (manejar_generacion_script jwtDecode env cfg authHeader (some datos)).1.2
          "script" = some (.str codigo)) ∧
    (∀ campos, generar_script_blender env.textoScript env.parseScript = .obj campos →
      jsonLookup campos "script" = some JVal.null →
      ∃ codigo : String,
        respField (manejar_generacion_script jwtDecode env cfg authHeader (some datos)).1.2
          "script" = some (.str codigo)) := by
  rcases hga : get_auth_user_id authHeader jwtDecode with ⟨uid, err⟩
  rw [hga] at hauth
  simp only at hauth
  subst hauth
  refine ⟨?_, ?_, ?_⟩
  · rcases hdict : generar_script_blender env.textoScript env.parseScript
        with _ | s | n | xs | campos
    · exact ⟨.str ("# Error fatal en el servidor: " ++ env.errorFatal),
        by simp [manejar_generacion_script, fatalGenScript, hga, hp, hs, hdict,
          jsonGet, respField, jsonLookup]⟩
    · exact ⟨.str ("# Error fatal en el servidor: " ++ env.errorFatal),
        by simp [manejar_generacion_script, fatalGenScript, hga, hp, hs, hdict,
          jsonGet, respField, jsonLookup]⟩
    · exact ⟨.str ("# Error fatal en el servidor: " ++ env.errorFatal),
        by simp [manejar_generacion_script, fatalGenScript, hga, hp, hs, hdict,
          jsonGet, respField, jsonLookup]⟩
    · exact ⟨.str ("# Error fatal en el servidor: " ++ env.errorFatal),
        by simp [manejar_generacion_script, fatalGenScript, hga, hp, hs, hdict,
          jsonGet, respField, jsonLookup]⟩
    · rcases hlook : jsonLookup campos "script" with _ | valor
      · cases hd : env.driverOk with
        | false =>
          exact ⟨.str ("# Error fatal en el servidor: " ++ env.errorFatal),
            by simp [manejar_generacion_script, fatalGenScript, hga, hp, hs, hdict,
              hlook, hd, jsonGet, marcadorEn, marcador_no_en_defecto, respField,
              jsonLookup]⟩
        | true =>
          exact ⟨.str scriptPorDefecto,
            by simp [manejar_generacion_script, hga, hp, hs, hdict, hlook, hd, jsonGet,
              marcadorEn, marcador_no_en_defecto, respField, jsonLookup]⟩
      · rcases hm : marcadorEn valor with _ | b
        · exact ⟨.str ("# Error fatal en el servidor: " ++ env.errorFatal),
            by simp [manejar_generacion_script, fatalGenScript, hga, hp, hs, hdict,
              hlook, hm, jsonGet, respField, jsonLookup]⟩
        · cases b with
          | true =>
            exact ⟨valor, by simp [manejar_generacion_script, hga, hp, hs, hdict, hlook,
              hm, jsonGet, respField]⟩
          | false =>
            cases hd : env.driverOk with
            | false =>
              exact ⟨.str ("# Error fatal en el servidor: " ++ env.errorFatal),
                by simp [manejar_generacion_script, fatalGenScript, hga, hp, hs, hdict,
                  hlook, hm, hd, jsonGet, respField, jsonLookup]⟩
            | true =>
              exact ⟨valor, by simp [manejar_generacion_script, hga, hp, hs, hdict,
                hlook, hm, hd, jsonGet, respField, jsonLookup]⟩
  · intro e he
    refine ⟨"# Error al generar el script.\n# " ++ limpiarMensajeError e, ?_⟩
    simp [manejar_generacion_script, hga, hp, hs, generar_script_blender, he, jsonGet,
      jsonLookup, marcadorEn, marcador_en_banner, respField]
  · intro campos hdict hlook
    exact ⟨"# Error fatal en el servidor: " ++ env.errorFatal,
      by simp [manejar_generacion_script, fatalGenScript, hga, hp, hs, hdict, hlook,
        jsonGet, marcadorEn, respField, jsonLookup]⟩

/-- Witness for C3 (amended): a concrete request whose generation call
throws gets a response with a script field, and that field is a string. -/
theorem C3_script_presente_witness :
    (get_auth_user_id (some "Bearer tok") wDecode).2 = none ∧
    wEnvScriptErr.textoScript = .error "boom" ∧
    (∃ v, respField (manejar_generacion_script wDecode wEnvScriptErr wCfg (some "Bearer tok")
        (some wBody)).1.2 "script" = some v) ∧
    (∃ codigo : String,
      respField (manejar_generacion_script wDecode wEnvScriptErr wCfg (some "Bearer tok")
        (some wBody)).1.2 "script" = some (.str codigo)) := by
  have h := C3_script_presente wDecode wEnvScriptErr wCfg (some "Bearer tok") wBody
    "como muevo un objeto" "ses-1" rfl rfl rfl
  exact ⟨rfl, rfl, h.1, h.2.1 "boom" rfl⟩

/-- C8 counterexample: a concrete strategist cycle with one recent user
prompt (so, consistent with a user having interacted moments before the
cycle began) still attempts the report insert - the loop reads no
user-activity timestamp before its research and write steps, so the claim
that such cycles perform no store writes fails. -/
theorem C8_counterexample :
    ciclo_maestro_writes wParseInforme [] [wPrompt] (.ok "texto del informe") =
      [MaestroWrite.insertInforme wInforme] ∧
    [MaestroWrite.insertInforme wInforme] ≠ ([] : List MaestroWrite) :=
  ⟨rfl, by simp⟩

/-- C8 (amended): ciclo_vida_maestro performs no cooldown check on user
activity; a cycle attempts its (single) report-insert store write exactly
when the collected telemetry is non-empty and the generation call returns
non-empty text whose cleaned form parses as a JSON object - the skip
conditions are empty telemetry, a raised or empty generation response and a
parse failure, never recent user activity. -/
theorem C8_sin_cooldown_de_actividad (parseJson : String → Option JVal)
    (metricas : List (String × MetricasTabla)) (prompts : List PromptRow)
    (textoRespuesta : Except String String) :
    ciclo_maestro_writes parseJson metricas prompts textoRespuesta ≠ [] ↔
      ¬(prompts = [] ∧ metricas = []) ∧
      ∃ texto campos, textoRespuesta = .ok texto ∧ texto ≠ "" ∧
        parseJson (limpiar_json texto) = some (.obj campos) := by
  have hvac : (prompts.isEmpty && metricas.isEmpty) = true ↔
      (prompts = [] ∧ metricas = []) := by
    simp [List.isEmpty_iff]
  by_cases hv : prompts.isEmpty && metricas.isEmpty
  · have hpm := hvac.mp hv
    simp [ciclo_maestro_writes, hv, hpm]
  · have hpm : ¬(prompts = [] ∧ metricas = []) := fun h => hv (hvac.mpr h)
    cases textoRespuesta with
    | error e => simp [ciclo_maestro_writes, hv]
    | ok texto =>
      by_cases ht : texto = ""
      · subst ht
        simp [ciclo_maestro_writes, hv]
      · rcases hparse : parseJson (limpiar_json texto) with _ | j
        · simp [ciclo_maestro_writes, hv, ht, hparse]
        · cases j with
          | obj campos =>
            simp only [ciclo_maestro_writes, hv, Bool.false_eq_true, if_false, ht,
              if_neg ht, hparse, guardar_informe_write]
            constructor
            · intro _
              exact ⟨hpm, texto, campos, rfl, ht, hparse⟩
            · intro _
              simp
          | null => simp [ciclo_maestro_writes, hv, ht, hparse, guardar_informe_write]
          | str s => simp [ciclo_maestro_writes, hv, ht, hparse, guardar_informe_write]
          | num n => simp [ciclo_maestro_writes, hv, ht, hparse, guardar_informe_write]
          | arr xs => simp [ciclo_maestro_writes, hv, ht, hparse, guardar_informe_write]

/-- Witness instantiation for C8 (amended) at a concrete cycle whose
generation call raised: no write is attempted there. -/
theorem C8_sin_cooldown_de_actividad_witness :
    (ciclo_maestro_writes wParseInforme [] [wPrompt] (.error "llm down") ≠ [] ↔
      ¬([wPrompt] = [] ∧ ([] : List (String × MetricasTabla)) = []) ∧
      ∃ texto campos, (.error "llm down" : Except String String) = .ok texto ∧ texto ≠ "" ∧
        wParseInforme (limpiar_json texto) = some (.obj campos)) :=
  C8_sin_cooldown_de_actividad wParseInforme [] [wPrompt] (.error "llm down")
